import Mathlib

/-!
Verification development for the Story-Generator pipeline
(`story_generator.py`).  The Python source is shallowly embedded: pure
logic becomes Lean functions, external effects (the Gemini service, the
clock, the filesystem, the faiss index, CPython's salted string hash and
the Mersenne-Twister PRNG) become explicit parameters or small
documented models, and fallible code returns `Option`/`Except`.
Python strings manipulated character-by-character are embedded as
`List Char` (Python `str` is a sequence of code points); machine floats
that only matter symbolically (sampling temperatures, vector entries)
are embedded as `ℚ`.
-/

namespace StoryGen

/-- `@dataclass Character` (story_generator.py:70-80), fields in source
order; the numpy vector is a rational list here. -/
structure Character where
  id : String
  name : String
  description : String
  traits : List String
  background : String
  relationships : List (String × String)
  story_arc : String
  vector : Option (List ℚ)
  deriving DecidableEq

/-- `@dataclass Location` (story_generator.py:82-90). -/
structure Location where
  id : String
  name : String
  description : String
  importance : String
  connected_locations : List String
  vector : Option (List ℚ)
  deriving DecidableEq

/-- `@dataclass Event` (story_generator.py:92-103). -/
structure Event where
  id : String
  title : String
  description : String
  characters_involved : List String
  location_id : String
  preceding_events : List String
  following_events : List String
  chapter : Int
  vector : Option (List ℚ)
  deriving DecidableEq

/-- `@dataclass Chapter` (story_generator.py:105-114). -/
structure Chapter where
  number : Int
  title : String
  summary : String
  content : String
  characters : List String
  locations : List String
  events : List String
  deriving DecidableEq

/-- The three entity maps of `VectorDatabase` (story_generator.py:170-185).
Python dicts keyed by fresh uuid4 strings preserve insertion order and
never collide, so each dict is embedded as the insertion-ordered list of
its values; `list(self.characters.values())` is then `db.characters`,
and `index.ntotal` equals the length of the matching list (every `add_*`
appends to the dict and the faiss index together). -/
structure VectorDatabase where
  characters : List Character
  locations : List Location
  events : List Event
  deriving DecidableEq

/-! ### Fingerprint function (`StoryGenerator.generate_vector`, lines 312-318)

The source seeds `random` with `hash(text)` and draws 1536 floats.
`hash` on `str` is CPython's per-process *salted* hash (PYTHONHASHSEED):
its value depends on a salt drawn once per interpreter process.  The
exact siphash and Mersenne-Twister algorithms are external runtime
components; they are modelled below by small deterministic functions
that keep exactly the properties the spec talks about: `py_hash`
depends on both the per-process salt and the text, and `rand_stream`
is a deterministic stream of values in `[0,1)` from its seed. -/

/-- Model of CPython's salted string hashing: a 64-bit fold over the
code points, started from the per-process salt. -/
def py_hash (salt : Nat) (text : String) : Nat :=
  text.toList.foldl (fun a c => (a * 1000003 + c.toNat) % 2 ^ 64) (salt % 2 ^ 64)

/-- Model of one Mersenne-Twister step: a 64-bit state transition. -/
def mt_word (state : Nat) : Nat :=
  (6364136223846793005 * state + 1442695040888963407) % 2 ^ 64

/-- `n` successive `random.random()` draws from a seeded state, each a
rational in `[0,1)`. -/
def rand_stream : Nat → Nat → List ℚ
  | _, 0 => []
  | state, n + 1 =>
      ((mt_word state : ℚ) / 2 ^ 64) :: rand_stream (mt_word state) n

/-- `StoryGenerator.generate_vector` (lines 312-318): seed the PRNG with
the (process-salted) hash of the text and draw 1536 values. -/
def generate_vector (salt : Nat) (text : String) : List ℚ :=
  rand_stream (py_hash salt text) 1536

/-! ### JSON model (`json.loads`)

`json.loads` is the Python standard library; it is modelled by a fuel-
based recursive-descent parser over the code points, covering the JSON
constructs the recovery logic exercises in the claims: `null`,
booleans, integers, escape-free strings, and (nested) arrays.  Floats,
string escapes and objects are outside the model; no claim below
depends on them, and every reply a claim evaluates concretely stays
inside this fragment.  Exactly like `json.loads`, the model fails on
any text that is not a single JSON value with only trailing
whitespace. -/

inductive Json where
  | null : Json
  | bool (b : Bool) : Json
  | num (n : Int) : Json
  | str (s : List Char) : Json
  | arr (xs : List Json) : Json

/-- Skip JSON whitespace. -/
def skipWs : List Char → List Char
  | c :: cs =>
      if c = ' ' ∨ c = '\n' ∨ c = '\t' ∨ c = '\r' then skipWs cs else c :: cs
  | [] => []

/-- Decimal digit value of a character, if any. -/
def digitVal (c : Char) : Option Nat :=
  if '0' ≤ c ∧ c ≤ '9' then some (c.toNat - '0'.toNat) else none

/-- Consume leading digits into an accumulator. -/
def parseNatAux : Nat → List Char → Nat × List Char
  | acc, c :: cs =>
      match digitVal c with
      | some d => parseNatAux (acc * 10 + d) cs
      | none => (acc, c :: cs)
  | acc, [] => (acc, [])

/-- Parse an optionally-signed integer literal. -/
def parseInt : List Char → Option (Int × List Char)
  | '-' :: cs =>
      match cs with
      | c :: _ =>
          if (digitVal c).isSome then
            some (-((parseNatAux 0 cs).1 : Int), (parseNatAux 0 cs).2)
          else none
      | [] => none
  | cs =>
      match cs with
      | c :: _ =>
          if (digitVal c).isSome then
            some (((parseNatAux 0 cs).1 : Int), (parseNatAux 0 cs).2)
          else none
      | [] => none

/-- Read an escape-free JSON string body up to the closing quote. -/
def parseStrAux : List Char → Option (List Char × List Char)
  | [] => none
  | c :: cs =>
      if c = '"' then some ([], cs)
      else
        match parseStrAux cs with
        | some (s, r) => some (c :: s, r)
        | none => none

/-- Result of one descent step of the JSON parser. -/
inductive ParseOut where
  | val (v : Json) (rest : List Char) : ParseOut
  | items (vs : List Json) (rest : List Char) : ParseOut
  | fail : ParseOut

/-- Fuel-bounded recursive descent: with `mode = false` parse one JSON
value, with `mode = true` parse one-or-more comma-separated values
followed by `]`. -/
def parseF : Nat → Bool → List Char → ParseOut
  | 0, _, _ => .fail
  | fuel + 1, false, cs =>
      match skipWs cs with
      | 'n' :: 'u' :: 'l' :: 'l' :: r => .val .null r
      | 't' :: 'r' :: 'u' :: 'e' :: r => .val (.bool true) r
      | 'f' :: 'a' :: 'l' :: 's' :: 'e' :: r => .val (.bool false) r
      | '"' :: r =>
          match parseStrAux r with
          | some (s, r') => .val (.str s) r'
          | none => .fail
      | '[' :: r =>
          match skipWs r with
          | ']' :: r' => .val (.arr []) r'
          | r' =>
              match parseF fuel true r' with
              | .items vs r'' => .val (.arr vs) r''
              | _ => .fail
      | cs' =>
          match parseInt cs' with
          | some (n, r') => .val (.num n) r'
          | none => .fail
  | fuel + 1, true, cs =>
      match parseF fuel false cs with
      | .val v r =>
          match skipWs r with
          | ',' :: r' =>
              match parseF fuel true r' with
              | .items vs r'' => .items (v :: vs) r''
              | _ => .fail
          | ']' :: r' => .items [v] r'
          | _ => .fail
      | _ => .fail

/-- Model of `json.loads`: parse one value and require only whitespace
after it.  The fuel `2 * length + 2` dominates the recursion depth of
any input of this length. -/
def json_loads (cs : List Char) : Option Json :=
  match parseF (2 * cs.length + 2) false cs with
  | .val v rest =>
      match skipWs rest with
      | [] => some v
      | _ => none
  | _ => none

/-! ### Bracket extraction (`create_universe` lines 381-387,
`generate_story_outline` lines 701-707)

`characters_json.find('[')` / `.rfind(']')` and the slice
`[start:end+1]`, applied when both brackets are found in the right
order. -/

/-- Index of the first occurrence of `c`, if any. -/
def findFrom (c : Char) : List Char → Option Nat
  | [] => none
  | x :: xs => if x = c then some 0 else (findFrom c xs).map (· + 1)

/-- Python `str.find`: first index or `-1`. -/
def py_find (c : Char) (cs : List Char) : Int :=
  match findFrom c cs with
  | some n => (n : Int)
  | none => -1

/-- Python `str.rfind`: last index or `-1`. -/
def py_rfind (c : Char) (cs : List Char) : Int :=
  match findFrom c cs.reverse with
  | some n => (cs.length : Int) - 1 - (n : Int)
  | none => -1

/-- The cleanup applied before `json.loads` in the character and outline
loops: keep the slice from the first `[` to the last `]` when both
exist in the right order, otherwise pass the raw text through. -/
def cleanJson (raw : List Char) : List Char :=
  let s := py_find '[' raw
  let e := py_rfind ']' raw
  if s ≠ -1 ∧ e ≠ -1 ∧ s < e then (raw.drop s.toNat).take (e.toNat + 1 - s.toNat)
  else raw

/-- One parse attempt of the character loop (lines 381-390): cleanup,
then `json.loads`. -/
def characters_parse_attempt (raw : List Char) : Option Json :=
  json_loads (cleanJson raw)

/-- One parse attempt of the location loop (lines 513-515): `json.loads`
on the raw reply — the source applies no bracket cleanup here. -/
def locations_parse_attempt (raw : List Char) : Option Json :=
  json_loads raw

/-- One parse attempt of the outline loop (lines 701-709): cleanup, then
`json.loads`. -/
def outline_parse_attempt (raw : List Char) : Option Json :=
  json_loads (cleanJson raw)

/-! ### Character-list recovery loop (`create_universe`, lines 375-490)

The service is modelled as the stream `replies`: `replies 0` is the
initial character-list reply, `replies (i+1)` the reply to the `i`-th
fix prompt.  The loop body catches `json.JSONDecodeError` only, so its
outcome is either the parsed value or the deterministic default set —
there is no error outcome, matching the source.  The per-record
post-processing (filling missing fields, computing fingerprints,
inserting into the store) happens after a successful parse and is
outside this loop's claims. -/

/-- The three archetypal default characters of lines 449-474 (also lines
589-613).  `uuid4` id generation is external randomness; ids are
placeholders here and no claim depends on them. -/
def default_characters : List Character :=
  [ { id := "varsayilan-1", name := "Ana Kahraman",
      description := "Hikayenin ana kahramanı, cesur ve kararlı bir karakter.",
      traits := ["Cesur", "Kararlı", "Dürüst"],
      background := "Sıradan bir hayattan maceraya atılan genç.",
      relationships := [], story_arc := "Kahramanın yolculuğu", vector := none },
    { id := "varsayilan-2", name := "Akıl Hocası",
      description := "Kahramana yol gösteren bilge karakter.",
      traits := ["Bilge", "Gizemli", "Yardımsever"],
      background := "Uzun yıllar boyunca bilgi biriktirmiş yaşlı bir rehber.",
      relationships := [("Ana Kahraman", "Rehber ve öğretmen")],
      story_arc := "Kahramana rehberlik etme", vector := none },
    { id := "varsayilan-3", name := "Rakip",
      description := "Kahramanın yoluna çıkan güçlü rakip.",
      traits := ["Hırslı", "Zeki", "Rekabetçi"],
      background := "Kendi hedefleri için mücadele eden güçlü karakter.",
      relationships := [("Ana Kahraman", "Rakip")],
      story_arc := "Rekabet ve çatışma", vector := none } ]

/-- Outcome of the character recovery loop, with the number of parse
attempts made and the total number of generation calls issued (the
initial reply plus one per fix prompt). -/
inductive CharsResult where
  | parsed (v : Json) (parseAttempts : Nat) (genCalls : Nat) : CharsResult
  | defaulted (chars : List Character) (parseAttempts : Nat) (genCalls : Nat) : CharsResult

/-- The `while retry_count < max_retries and not characters_processed`
loop (lines 379-490), with `max_retries = 3`.  The fuel argument only
bounds the recursion; the initial call supplies enough for the three
iterations the guard admits, so the fuel-exhausted branch is
unreachable. -/
def characters_loop_go (replies : Nat → List Char) :
    Nat → Nat → Nat → Nat → CharsResult
  | 0, _, attempts, calls => .defaulted default_characters attempts calls
  | fuel + 1, rc, attempts, calls =>
      if rc < 3 then
        match characters_parse_attempt (replies rc) with
        | some v => .parsed v (attempts + 1) calls
        | none =>
            if rc + 1 < 3 then
              characters_loop_go replies fuel (rc + 1) (attempts + 1) (calls + 1)
            else .defaulted default_characters (attempts + 1) calls
      else
        -- loop guard false on entry: cannot happen starting from rc = 0
        .defaulted default_characters attempts calls

/-- Character-list recovery as entered at line 379: retry counter 0, no
parse attempt made yet, one generation call (the initial character
prompt of line 372) already issued. -/
def create_universe_characters (replies : Nat → List Char) : CharsResult :=
  characters_loop_go replies 3 0 0 1

/-! ### Outline normalization (`generate_story_outline`, lines 709-746)

One parsed outline record, after the caller's `.get(...)` defaulting;
`number` is `Int` because the service may return any integer before
renumbering. -/

structure OutlineEntry where
  number : Int
  title : String
  summary : String
  characters : List String
  locations : List String
  events : List String
  deriving DecidableEq

/-- The synthesized placeholder of lines 723-730: generic title/summary/
events for chapter `i`, character and location selections cloned from
the last parsed entry. -/
def placeholder_entry (i : Nat) (last : OutlineEntry) : OutlineEntry :=
  { number := (i : Int),
    title := "Bölüm " ++ toString i,
    summary := "Hikayenin " ++ toString i ++ ". bölümü",
    characters := last.characters,
    locations := last.locations,
    events := ["Olay " ++ toString i ++ ".1", "Olay " ++ toString i ++ ".2"] }

/-- `for i in range(actual+1, target+1)` of line 722: placeholders for
chapters `i, i+1, …` (`n` of them). -/
def pad_placeholders (last : OutlineEntry) : Nat → Nat → List OutlineEntry
  | _, 0 => []
  | i, n + 1 => placeholder_entry i last :: pad_placeholders last (i + 1) n

/-- `for i, chapter in enumerate(outline_data): chapter["number"] = i+1`
(lines 738-739), entered with counter `i`. -/
def renumber_from : Nat → List OutlineEntry → List OutlineEntry
  | _, [] => []
  | i, e :: es => { e with number := (i : Int) + 1 } :: renumber_from (i + 1) es

/-- Lines 709-746: pad a short parsed outline with placeholders cloned
from its last entry, truncate a long one, then renumber densely.
`none` models the uncaught `IndexError` that `outline_data[-1]` raises
when the parsed array is empty (the surrounding `except` catches only
`json.JSONDecodeError`). -/
def normalize_outline (target : Nat) (raw : List OutlineEntry) :
    Option (List OutlineEntry) :=
  if raw.length < target then
    match raw.getLast? with
    | none => none
    | some last =>
        some (renumber_from 0
          (raw ++ pad_placeholders last (raw.length + 1) (target - raw.length)))
  else if raw.length > target then
    some (renumber_from 0 (raw.take target))
  else
    some (renumber_from 0 raw)

/-- The dense chapter numbering `i, i+1, …` (`n` entries) that
normalization must produce, as integers. -/
def dense_numbers : Nat → Nat → List Int
  | _, 0 => []
  | i, n + 1 => (i : Int) :: dense_numbers (i + 1) n

/-! ### Chapter prose generation (`generate_chapter`, lines 797-979)

Each `gemini_client.generate_content` call for chapter prose is
modelled by a `GenAttempt`: either the text the service returned or a
raised exception.  The loop of lines 899-943 runs while
`retry_count <= max_retries and not chapter_content`: the reply is
assigned to `chapter_content` (line 905) *before* the
`not chapter_content or len(chapter_content) < 500` check of line 906
raises, and the `except` block never clears `chapter_content`, so the
guard re-enters the loop only while the stored content is **falsy** —
a raised call or an empty reply. -/

inductive GenAttempt where
  | ok (text : String) : GenAttempt
  | err : GenAttempt
  deriving DecidableEq

/-- Which prompt an attempt used: the full-context prompt of lines
865-896 or the reduced-context prompt of lines 915-929. -/
inductive PromptKind where
  | full : PromptKind
  | reduced : PromptKind
  deriving DecidableEq

/-- Trace of one run of the prose loop: the final chapter content, the
prompt used by each attempt in order, the number of 10-second
cooldowns slept, and whether the templated fallback was used. -/
structure ProseRun where
  content : String
  prompts : List PromptKind
  cooldowns : Nat
  fellBack : Bool
  deriving DecidableEq

/-- The templated fallback body of lines 933-943, built from the outline
fields and the (possibly augmented) chapter character/location name
lists.  The Python triple-quoted literal's incidental indentation is
not reproduced. -/
def fallback_content (e : OutlineEntry) (chars locs : List String) : String :=
  "# Bölüm " ++ toString e.number ++ ": " ++ e.title ++ "\n\n" ++
  e.summary ++ "\n\nBu bölümde, " ++ String.intercalate ", " chars ++
  " karakterleri, " ++ String.intercalate ", " locs ++
  " konumlarında bir araya geldiler.\n\n" ++
  String.intercalate ", " e.events ++ " olayları yaşandı.\n\n" ++
  "[Otomatik oluşturulan içerik - Tam metin oluşturma başarısız]"

/-- The `while retry_count <= max_retries and not chapter_content` loop
(lines 899-943) with `max_retries = 2`: attempt `rc` uses the full
prompt iff `rc = 0`.  A raise by line 906 increments the counter and,
while it is still `≤ 2`, sleeps 10 seconds and switches to the reduced
prompt; once it exceeds 2 the fallback text becomes the content.  But
the loop re-runs only while `chapter_content` is falsy: after a raised
call (`.err`, content unassigned) or an empty reply the guard
re-enters, whereas a **non-empty reply shorter than 500 characters**
stays assigned to `chapter_content` and ends the loop as the final
content — the `except` block has already slept its 10 seconds and
prepared the reduced prompt, but no further attempt is made.  The fuel
bounds the recursion; the initial call supplies enough for the three
iterations the guard admits. -/
def prose_loop_go (att : Nat → GenAttempt) (fallback : String) :
    Nat → Nat → List PromptKind → Nat → ProseRun
  | 0, _, ps, cds => ⟨fallback, ps, cds, true⟩
  | fuel + 1, rc, ps, cds =>
      if rc ≤ 2 then
        let pk := if rc = 0 then PromptKind.full else PromptKind.reduced
        match att rc with
        | .ok s =>
            if s.length < 500 then
              -- line 906 raises, but `s` is already stored in chapter_content
              if rc + 1 ≤ 2 then
                if s = "" then
                  prose_loop_go att fallback fuel (rc + 1) (ps ++ [pk]) (cds + 1)
                else ⟨s, ps ++ [pk], cds + 1, false⟩
              else ⟨fallback, ps ++ [pk], cds, true⟩
            else ⟨s, ps ++ [pk], cds, false⟩
        | .err =>
            if rc + 1 ≤ 2 then
              prose_loop_go att fallback fuel (rc + 1) (ps ++ [pk]) (cds + 1)
            else ⟨fallback, ps ++ [pk], cds, true⟩
      else ⟨fallback, ps, cds, true⟩

/-- The prose loop as entered at line 903. -/
def generate_chapter_content (att : Nat → GenAttempt) (fallback : String) :
    ProseRun :=
  prose_loop_go att fallback 3 0 [] 0

/-! ### Chapter assembly and the chapter loop
(`generate_chapter` lines 802-838 and 945-954,
`generate_full_story` lines 996-1015) -/

/-- Lines 802-838: the outline's character (resp. location) names are
looked up in the store by exact name; when none resolve and the store
is non-empty, names drawn by `random.sample` — modelled by the
`sample` parameter — are appended to the chapter's list. -/
def resolve_names (dbNames wanted sample : List String) : List String :=
  if wanted.filter (fun n => dbNames.contains n) = [] ∧ dbNames ≠ [] then
    wanted ++ sample
  else wanted

/-- `generate_chapter` restricted to its pure state transformation: the
returned `Chapter` of lines 946-954.  Prose attempts, the sampled
fallback names, and the store's name lists are explicit inputs; the
per-chapter file write and event insertion are effects on other state
and not part of the returned chapter. -/
def generate_chapter (dbCharNames dbLocNames : List String) (e : OutlineEntry)
    (att : Nat → GenAttempt) (charSample locSample : List String) : Chapter :=
  let chars := resolve_names dbCharNames e.characters charSample
  let locs := resolve_names dbLocNames e.locations locSample
  let run := generate_chapter_content att (fallback_content e chars locs)
  { number := e.number, title := e.title, summary := e.summary,
    content := run.content, characters := chars, locations := locs,
    events := e.events }

/-- The `for chapter_index, chapter_outline in enumerate(story_outline)`
loop of lines 996-1015, collecting the chapters appended to
`self.chapters`.  `generate_chapter` is total here — a prose failure
produces the fallback chapter, never an exception — so every outline
entry yields exactly one appended chapter. -/
def chapter_loop_go (dbCharNames dbLocNames : List String)
    (att : Nat → Nat → GenAttempt) (charSample locSample : Nat → List String) :
    Nat → List OutlineEntry → List Chapter
  | _, [] => []
  | i, e :: es =>
      generate_chapter dbCharNames dbLocNames e (att i) (charSample i) (locSample i) ::
        chapter_loop_go dbCharNames dbLocNames att charSample locSample (i + 1) es

/-- `generate_full_story` from outline normalization through the chapter
loop: the chapters stored after the loop, or `none` when normalization
itself raised. -/
def generate_full_story_chapters (dbCharNames dbLocNames : List String)
    (target : Nat) (raw : List OutlineEntry) (att : Nat → Nat → GenAttempt)
    (charSample locSample : Nat → List String) : Option (List Chapter) :=
  (normalize_outline target raw).map
    (chapter_loop_go dbCharNames dbLocNames att charSample locSample 0)

/-! ### Content service client (`GeminiClient.generate_content`,
lines 128-168)

The remote service is modelled by the outcomes of the at-most-two
transport calls; temperatures are exact rationals (`0.9` in the source
is the model's `9/10`). -/

structure GeminiState where
  temperature : ℚ
  max_tokens : Nat
  deriving DecidableEq

inductive CallResult where
  | ok (text : String) : CallResult
  | err : CallResult
  deriving DecidableEq

/-- Trace of one `generate_content` call: the temperature passed to each
service call in order, and the seconds slept before each retry. -/
structure GenTrace where
  temps : List ℚ
  sleeps : List Nat
  deriving DecidableEq

/-- Lines 138-168: call at the configured temperature; on failure sleep
5 seconds and retry once at `temperature * 0.9`; a second failure
re-raises.  `self.temperature` is read, never assigned, so the client
state is returned unchanged. -/
def generate_content (st : GeminiState) (first retry : CallResult) :
    Except Unit String × GenTrace × GeminiState :=
  match first with
  | .ok t => (Except.ok t, ⟨[st.temperature], []⟩, st)
  | .err =>
      match retry with
      | .ok t =>
          (Except.ok t, ⟨[st.temperature, st.temperature * (9 / 10)], [5]⟩, st)
      | .err =>
          (Except.error (), ⟨[st.temperature, st.temperature * (9 / 10)], [5]⟩, st)

/-! ### Checkpointing (`VectorDatabase.save_to_file` lines 229-272,
`StoryGenerator.save_progress` lines 1029-1040)

Disk writes are modelled by a `DiskOutcome` parameter. -/

inductive DiskOutcome where
  | ok : DiskOutcome
  | ioError : DiskOutcome
  deriving DecidableEq

/-- A character as serialized by `save_to_file` (lines 232-240): all
fields except the vector. -/
structure SerializedCharacter where
  id : String
  name : String
  description : String
  traits : List String
  background : String
  relationships : List (String × String)
  story_arc : String
  deriving DecidableEq

/-- A location as serialized by `save_to_file` (lines 242-248). -/
structure SerializedLocation where
  id : String
  name : String
  description : String
  importance : String
  connected_locations : List String
  deriving DecidableEq

/-- An event as serialized by `save_to_file` (lines 250-259). -/
structure SerializedEvent where
  id : String
  title : String
  description : String
  characters_involved : List String
  location_id : String
  preceding_events : List String
  following_events : List String
  chapter : Int
  deriving DecidableEq

/-- The `{characters, locations, events}` snapshot of lines 261-265. -/
structure DbSnapshot where
  characters : List SerializedCharacter
  locations : List SerializedLocation
  events : List SerializedEvent
  deriving DecidableEq

/-- Lines 232-265: serialize every stored entity minus its vector. -/
def serialize_db (db : VectorDatabase) : DbSnapshot :=
  { characters := db.characters.map (fun c =>
      { id := c.id, name := c.name, description := c.description,
        traits := c.traits, background := c.background,
        relationships := c.relationships, story_arc := c.story_arc }),
    locations := db.locations.map (fun l =>
      { id := l.id, name := l.name, description := l.description,
        importance := l.importance,
        connected_locations := l.connected_locations }),
    events := db.events.map (fun e =>
      { id := e.id, title := e.title, description := e.description,
        characters_involved := e.characters_involved,
        location_id := e.location_id, preceding_events := e.preceding_events,
        following_events := e.following_events, chapter := e.chapter }) }

/-- The `json.dump` write of lines 267-268: yields the written snapshot,
or an I/O error. -/
def write_json_file (data : DbSnapshot) : DiskOutcome → Except String DbSnapshot
  | .ok => Except.ok data
  | .ioError => Except.error "disk"

/-- `VectorDatabase.save_to_file` (lines 229-272): the whole body is in
`try: … except Exception as e: logger.error(…)`, so an I/O failure is
logged and swallowed — the result is `ok` either way, carrying the
snapshot when the write happened. -/
def save_to_file (db : VectorDatabase) (disk : DiskOutcome) :
    Except String (Option DbSnapshot) :=
  match write_json_file (serialize_db db) disk with
  | Except.ok d => Except.ok (some d)
  | Except.error _ => Except.ok none

/-- The cumulative Markdown draft of lines 1034-1038. -/
def render_draft (chapters : List Chapter) : String :=
  chapters.foldl
    (fun acc ch =>
      acc ++ "# Bölüm " ++ toString ch.number ++ ": " ++ ch.title ++ "\n\n" ++
        ch.content ++ "\n\n---\n\n") ""

/-- The `open(...).write(...)` of lines 1034-1038: yields the written
text, or an I/O error. -/
def write_text_file (data : String) : DiskOutcome → Except String String
  | .ok => Except.ok data
  | .ioError => Except.error "disk"

/-- `StoryGenerator.save_progress` (lines 1029-1040): writes the
cumulative draft with **no** `try`/`except` around the write, so an I/O
failure propagates to the caller. -/
def save_progress (chapters : List Chapter) (disk : DiskOutcome) :
    Except String String :=
  write_text_file (render_draft chapters) disk

/-! ### Related-event recall (`generate_chapter`, lines 850-863) -/

/-- Stable insertion into a list sorted by descending chapter: the new
event goes after existing events with an equal-or-later chapter,
matching the stability of Python's `sorted(…, reverse=True)`. -/
def insert_by_chapter_desc (e : Event) : List Event → List Event
  | [] => [e]
  | x :: xs =>
      if e.chapter ≤ x.chapter then x :: insert_by_chapter_desc e xs
      else e :: x :: xs

/-- `sorted(events_with_character, key=lambda x: x.chapter, reverse=True)`
(line 859): stable descending sort by chapter. -/
def sort_by_chapter_desc (l : List Event) : List Event :=
  l.foldl (fun acc e => insert_by_chapter_desc e acc) []

/-- Lines 853-861 for one chapter character: the stored events involving
that character, most-recent-chapter-first, capped at 3.  (The source
then renders each as a `"- title: description"` line; the selection
and order are what the claims are about.) -/
def events_for_character (events : List Event) (name : String) : List Event :=
  (sort_by_chapter_desc
      (events.filter (fun ev => decide (name ∈ ev.characters_involved)))).take 3

/-- Lines 850-863: concatenate each chapter character's recalled events
in character order, then keep at most 5 (`related_events[:5]`). -/
def related_events (events : List Event) (chapterChars : List String) :
    List Event :=
  ((chapterChars.map (events_for_character events)).flatten).take 5

/-! ### Similarity search (`VectorDatabase.search_similar_characters`,
lines 205-211)

`faiss.IndexFlatL2.search` is external; its documented contract is that
each row of `indices` holds the positions of the nearest stored vectors
and is padded with `-1` when fewer than `k` exist.  The wrapper's list
comprehension filters with `i < len(self.characters)` and then indexes
`list(self.characters.values())[i]` with Python semantics — a negative
index counts from the end, and an out-of-range index raises. -/

/-- Python list indexing `l[i]`: negative indices count from the end;
`none` models the `IndexError`. -/
def py_get {α : Type} (l : List α) (i : Int) : Option α :=
  if 0 ≤ i then l.get? i.toNat
  else if 0 ≤ (l.length : Int) + i then l.get? ((l.length : Int) + i).toNat
  else none

/-- A Python list comprehension over fallible element expressions: any
raising element aborts the whole comprehension. -/
def list_comp {α β : Type} (f : α → Option β) : List α → Option (List β)
  | [] => some []
  | a :: as =>
      match f a with
      | none => none
      | some b =>
          match list_comp f as with
          | some bs => some (b :: bs)
          | none => none

/-- The property faiss guarantees of a returned index row for an index
holding `n` vectors: every entry is a valid position or the `-1`
padding. -/
def faiss_indices_ok (n : Nat) (indices : List Int) : Prop :=
  ∀ i ∈ indices, i = -1 ∨ (0 ≤ i ∧ i < (n : Int))

/-- `search_similar_characters` (lines 205-211): empty index short-
circuits to `[]`; otherwise the comprehension
`[list(self.characters.values())[i] for i in indices[0] if i < len(self.characters)]`. -/
def search_similar_characters (db : VectorDatabase) (indices : List Int) :
    Option (List Character) :=
  if db.characters.length = 0 then some []
  else
    list_comp (py_get db.characters)
      (indices.filter (fun i => decide (i < (db.characters.length : Int))))

/-! ### Concrete sample inputs used by witnesses and counterexamples -/

/-- A client configured with the source's default temperature `0.7` and
`MAX_TOKENS` 4096 (lines 135-136). -/
def sample_client : GeminiState := ⟨7 / 10, 4096⟩

/-- One parsed outline record. -/
def sample_outline_entry : OutlineEntry :=
  { number := 7, title := "Başlangıç", summary := "Yolculuk başlar",
    characters := ["Ana Kahraman"], locations := ["Ana Şehir"],
    events := ["Olay 1.1"] }

/-- A service reply with no brackets at all: every parse attempt on it
fails. -/
def no_bracket_reply : List Char :=
  "Tamam, karakterler birazdan gelecek.".toList

/-- Two stored characters, in insertion order. -/
def char_a : Character :=
  { id := "k-a", name := "Aysel", description := "İlk karakter",
    traits := [], background := "", relationships := [], story_arc := "",
    vector := none }

def char_b : Character :=
  { id := "k-b", name := "Baran", description := "İkinci karakter",
    traits := [], background := "", relationships := [], story_arc := "",
    vector := none }

/-- A store holding exactly the two characters above. -/
def sample_db : VectorDatabase :=
  { characters := [char_a, char_b], locations := [], events := [] }

/-- Three stored events: two involve character `"A"` (chapters 5 and 3),
one involves character `"B"` (chapter 9). -/
def ev_a5 : Event :=
  { id := "e1", title := "Kapı açılır", description := "A kapıyı açar",
    characters_involved := ["A"], location_id := "", preceding_events := [],
    following_events := [], chapter := 5, vector := none }

def ev_a3 : Event :=
  { id := "e2", title := "Mektup gelir", description := "A mektubu okur",
    characters_involved := ["A"], location_id := "", preceding_events := [],
    following_events := [], chapter := 3, vector := none }

def ev_b9 : Event :=
  { id := "e3", title := "Fırtına kopar", description := "B fırtınaya yakalanır",
    characters_involved := ["B"], location_id := "", preceding_events := [],
    following_events := [], chapter := 9, vector := none }

/-!
## Theorems

Each claim `Ci` of the specification is settled by one theorem below;
supporting lemmas come first.
-/

lemma rand_stream_length (state n : Nat) : (rand_stream state n).length = n := by
  induction n generalizing state with
  | zero => rfl
  | succ k ih => simp [rand_stream, ih]

lemma generate_vector_head (salt : Nat) (t : String) :
    (generate_vector salt t).head? =
      some ((mt_word (py_hash salt t) : ℚ) / 2 ^ 64) := rfl

/-- C6 (amended): within one process run — a fixed hash salt — the
fingerprint is a pure function of the text, and it always has the fixed
length 1536. -/
theorem fingerprint_deterministic_within_run (salt : Nat) (t1 t2 : String)
    (h : t1 = t2) :
    generate_vector salt t1 = generate_vector salt t2 ∧
    (generate_vector salt t1).length = 1536 := by
  subst h
  exact ⟨rfl, by simp [generate_vector, rand_stream_length]⟩

theorem fingerprint_deterministic_within_run_witness :
    generate_vector 0 "a" = generate_vector 0 "a" ∧
    (generate_vector 0 "a").length = 1536 :=
  fingerprint_deterministic_within_run 0 "a" "a" rfl

/-- C6 counterexample: across two runs the per-process hash salts can
differ, and then the same text yields different vectors — the
fingerprint is not a pure function of the text alone. -/
theorem fingerprint_salt_dependent :
    generate_vector 0 "a" ≠ generate_vector 1 "a" := by
  intro h
  have h2 := congrArg List.head? h
  rw [generate_vector_head, generate_vector_head] at h2
  have h3 : ((mt_word (py_hash 0 "a") : ℚ) / 2 ^ 64) =
      ((mt_word (py_hash 1 "a") : ℚ) / 2 ^ 64) := Option.some.inj h2
  rw [div_eq_div_iff (by norm_num) (by norm_num)] at h3
  have h4 : (mt_word (py_hash 0 "a") : ℚ) = (mt_word (py_hash 1 "a") : ℚ) :=
    mul_right_cancel₀ (by norm_num) h3
  have h5 : mt_word (py_hash 0 "a") = mt_word (py_hash 1 "a") := by
    exact_mod_cast h4
  have h6 : mt_word (py_hash 0 "a") ≠ mt_word (py_hash 1 "a") := by decide
  exact h6 h5

/-- C7: on a transport failure `generate_content` sleeps 5 seconds and
retries exactly once at 0.9 times the configured temperature; a second
failure propagates as an error; at most two service calls are made, the
first always at the configured temperature, and the client state is
returned unchanged. -/
theorem generate_content_retry_contract (st : GeminiState)
    (first retry : CallResult) :
    (generate_content st first retry).2.2 = st ∧
    (generate_content st first retry).2.1.temps.length ≤ 2 ∧
    (generate_content st first retry).2.1.temps.head? = some st.temperature ∧
    (first = CallResult.err →
      (generate_content st first retry).2.1.temps =
        [st.temperature, st.temperature * (9 / 10)] ∧
      (generate_content st first retry).2.1.sleeps = [5]) ∧
    (first = CallResult.err → retry = CallResult.err →
      (generate_content st first retry).1 = Except.error ()) ∧
    (∀ t, first = CallResult.ok t →
      (generate_content st first retry).1 = Except.ok t ∧
      (generate_content st first retry).2.1.sleeps = []) := by
  cases first <;> cases retry <;> simp [generate_content]

theorem generate_content_retry_contract_witness :
    (generate_content sample_client CallResult.err CallResult.err).2.2 =
      sample_client ∧
    (generate_content sample_client CallResult.err CallResult.err).1 =
      Except.error () ∧
    (generate_content sample_client CallResult.err CallResult.err).2.1.temps =
      [sample_client.temperature, sample_client.temperature * (9 / 10)] := by
  obtain ⟨h1, -, -, h4, h5, -⟩ :=
    generate_content_retry_contract sample_client CallResult.err CallResult.err
  exact ⟨h1, h5 rfl rfl, (h4 rfl).1⟩

/-- C8 (amended): the entity-store snapshot writer `save_to_file`
swallows every I/O failure and never raises, while the cumulative
Markdown draft writer `save_progress` has no handler: it writes the
rendered draft on success and propagates the I/O error on failure. -/
theorem checkpoint_error_handling :
    (∀ db disk, ∃ r, save_to_file db disk = Except.ok r) ∧
    (∀ chapters, save_progress chapters DiskOutcome.ok =
      Except.ok (render_draft chapters)) ∧
    (∀ chapters, save_progress chapters DiskOutcome.ioError =
      Except.error "disk") := by
  refine ⟨fun db disk => ?_, fun _ => rfl, fun _ => rfl⟩
  cases disk
  · exact ⟨some (serialize_db db), rfl⟩
  · exact ⟨none, rfl⟩

/-- C8 counterexample: an I/O failure while writing the cumulative
Markdown draft propagates out of `save_progress`, so checkpointing can
raise to its caller. -/
theorem save_progress_raises :
    save_progress [] DiskOutcome.ioError = Except.error "disk" := rfl

lemma pad_placeholders_length (last : OutlineEntry) (i n : Nat) :
    (pad_placeholders last i n).length = n := by
  induction n generalizing i with
  | zero => rfl
  | succ k ih => simp [pad_placeholders, ih]

lemma renumber_from_length (i : Nat) (l : List OutlineEntry) :
    (renumber_from i l).length = l.length := by
  induction l generalizing i with
  | nil => rfl
  | cons e es ih => simp [renumber_from, ih]

lemma renumber_from_map_number (l : List OutlineEntry) (i : Nat) :
    (renumber_from i l).map (fun e => e.number) =
      dense_numbers (i + 1) l.length := by
  induction l generalizing i with
  | nil => rfl
  | cons e es ih =>
      simp only [renumber_from, List.map_cons, List.length_cons, dense_numbers, ih]
      refine (List.cons_eq_cons).mpr ⟨by push_cast; ring, rfl⟩

lemma normalize_outline_spec (target : Nat) (raw : List OutlineEntry)
    (h2 : raw ≠ []) :
    ∃ out, normalize_outline target raw = some out ∧ out.length = target ∧
      out.map (fun e => e.number) = dense_numbers 1 target := by
  by_cases hlt : raw.length < target
  · obtain ⟨last, hlast⟩ :=
      Option.isSome_iff_exists.mp (List.getLast?_isSome.mpr h2)
    have hlen : (raw ++ pad_placeholders last (raw.length + 1)
        (target - raw.length)).length = target := by
      simp only [List.length_append, pad_placeholders_length]
      omega
    have hmain : normalize_outline target raw = some (renumber_from 0
        (raw ++ pad_placeholders last (raw.length + 1) (target - raw.length))) := by
      simp [normalize_outline, hlt, hlast]
    refine ⟨_, hmain, ?_, ?_⟩
    · rw [renumber_from_length, hlen]
    · rw [renumber_from_map_number, hlen]
  · by_cases hgt : raw.length > target
    · have hlen : (raw.take target).length = target := by
        simp only [List.length_take]
        omega
      have hmain : normalize_outline target raw =
          some (renumber_from 0 (raw.take target)) := by
        simp [normalize_outline, hlt, hgt]
      refine ⟨_, hmain, ?_, ?_⟩
      · rw [renumber_from_length, hlen]
      · rw [renumber_from_map_number, hlen]
    · have hlen : raw.length = target := by omega
      have hmain : normalize_outline target raw =
          some (renumber_from 0 raw) := by
        simp [normalize_outline, hlt, hgt]
      refine ⟨_, hmain, ?_, ?_⟩
      · rw [renumber_from_length, hlen]
      · rw [renumber_from_map_number, hlen]

/-- C1 (amended): for every chapter count `N ≥ 1` and every
**non-empty** successfully parsed raw outline array, normalization
returns exactly `N` entries renumbered densely `1..N` — padding a short
array with placeholders cloned from its last entry, truncating a long
one.  (The empty parsed array instead raises, see the counterexample.) -/
theorem outline_normalization_dense (target : Nat) (raw : List OutlineEntry)
    (_h1 : 1 ≤ target) (h2 : raw ≠ []) :
    ∃ out, normalize_outline target raw = some out ∧ out.length = target ∧
      out.map (fun e => e.number) = dense_numbers 1 target :=
  normalize_outline_spec target raw h2

theorem outline_normalization_dense_witness :
    ∃ out, normalize_outline 3 [sample_outline_entry] = some out ∧
      out.length = 3 ∧
      out.map (fun e => e.number) = dense_numbers 1 3 :=
  outline_normalization_dense 3 [sample_outline_entry] (by decide) (by simp)

/-- C1 counterexample: the empty array is a successfully parsed raw
outline array, yet normalization produces no outline at all —
`outline_data[-1]` raises an uncaught `IndexError`. -/
theorem outline_normalization_empty_raw :
    normalize_outline 3 [] = none := rfl

lemma chapter_loop_go_length (dbc dbl : List String)
    (att : Nat → Nat → GenAttempt) (cs ls : Nat → List String) :
    ∀ (i : Nat) (l : List OutlineEntry),
      (chapter_loop_go dbc dbl att cs ls i l).length = l.length := by
  intro i l
  induction l generalizing i with
  | nil => rfl
  | cons e es ih => simp [chapter_loop_go, ih]

lemma chapter_loop_go_map_number (dbc dbl : List String)
    (att : Nat → Nat → GenAttempt) (cs ls : Nat → List String) :
    ∀ (i : Nat) (l : List OutlineEntry),
      (chapter_loop_go dbc dbl att cs ls i l).map (fun c => c.number) =
        l.map (fun e => e.number) := by
  intro i l
  induction l generalizing i with
  | nil => rfl
  | cons e es ih => simp [chapter_loop_go, generate_chapter, ih]

/-- C5: over any normalized outline of `N ≥ 1` entries and any prose
outcomes — including every attempt of every chapter failing — the
chapter loop never aborts: it stores exactly `N` chapters whose
sequence numbers are densely `1..N`. -/
theorem chapter_loop_dense_numbers (dbCharNames dbLocNames : List String)
    (target : Nat) (raw : List OutlineEntry) (att : Nat → Nat → GenAttempt)
    (charSample locSample : Nat → List String)
    (_h1 : 1 ≤ target) (h2 : raw ≠ []) :
    ∃ chapters,
      generate_full_story_chapters dbCharNames dbLocNames target raw att
        charSample locSample = some chapters ∧
      chapters.length = target ∧
      chapters.map (fun c => c.number) = dense_numbers 1 target := by
  obtain ⟨out, hout, hlen, hnum⟩ := normalize_outline_spec target raw h2
  have hmain : generate_full_story_chapters dbCharNames dbLocNames target raw
      att charSample locSample =
      some (chapter_loop_go dbCharNames dbLocNames att charSample locSample 0 out) := by
    simp [generate_full_story_chapters, hout]
  refine ⟨_, hmain, ?_, ?_⟩
  · rw [chapter_loop_go_length, hlen]
  · rw [chapter_loop_go_map_number, hnum]

theorem chapter_loop_dense_numbers_witness :
    ∃ chapters,
      generate_full_story_chapters [] [] 3 [sample_outline_entry]
        (fun _ _ => GenAttempt.err) (fun _ => []) (fun _ => []) =
        some chapters ∧
      chapters.length = 3 ∧
      chapters.map (fun c => c.number) = dense_numbers 1 3 :=
  chapter_loop_dense_numbers [] [] 3 [sample_outline_entry]
    (fun _ _ => GenAttempt.err) (fun _ => []) (fun _ => [])
    (by decide) (by simp)

lemma characters_loop_fail_step (replies : Nat → List Char)
    (fuel rc a c : Nat) (hrc : rc < 3) (hnext : rc + 1 < 3)
    (hp : characters_parse_attempt (replies rc) = none) :
    characters_loop_go replies (fuel + 1) rc a c =
      characters_loop_go replies fuel (rc + 1) (a + 1) (c + 1) := by
  simp [characters_loop_go, hrc, hnext, hp]

lemma characters_loop_fail_last (replies : Nat → List Char)
    (fuel rc a c : Nat) (hrc : rc < 3) (hnext : ¬ rc + 1 < 3)
    (hp : characters_parse_attempt (replies rc) = none) :
    characters_loop_go replies (fuel + 1) rc a c =
      CharsResult.defaulted default_characters (a + 1) c := by
  simp [characters_loop_go, hrc, hnext, hp]

/-- C3: when no character-list reply ever parses, the recovery loop
makes exactly 3 parse attempts over exactly 3 generation calls
(re-prompting between failures), then substitutes the deterministic
default set of three archetypal characters and terminates — the parse
failure never escapes the loop. -/
theorem characters_recovery_default_after_three (replies : Nat → List Char)
    (h : ∀ i, i < 3 → characters_parse_attempt (replies i) = none) :
    create_universe_characters replies =
      CharsResult.defaulted default_characters 3 3 ∧
    default_characters.length = 3 := by
  refine ⟨?_, rfl⟩
  calc create_universe_characters replies
      = characters_loop_go replies (2 + 1) 0 0 1 := rfl
    _ = characters_loop_go replies (1 + 1) 1 1 2 :=
        characters_loop_fail_step replies 2 0 0 1 (by omega) (by omega)
          (h 0 (by omega))
    _ = characters_loop_go replies (0 + 1) 2 2 3 :=
        characters_loop_fail_step replies 1 1 1 2 (by omega) (by omega)
          (h 1 (by omega))
    _ = CharsResult.defaulted default_characters 3 3 :=
        characters_loop_fail_last replies 0 2 2 3 (by omega) (by omega)
          (h 2 (by omega))

theorem characters_recovery_default_after_three_witness :
    create_universe_characters (fun _ => no_bracket_reply) =
      CharsResult.defaulted default_characters 3 3 ∧
    default_characters.length = 3 :=
  characters_recovery_default_after_three (fun _ => no_bracket_reply)
    (fun _ _ => rfl)

lemma prose_loop_guard_exit (att : Nat → GenAttempt) (fb : String)
    (fuel rc : Nat) (ps : List PromptKind) (cds : Nat) (hrc : ¬ rc ≤ 2) :
    prose_loop_go att fb (fuel + 1) rc ps cds = ⟨fb, ps, cds, true⟩ := by
  simp [prose_loop_go, hrc]

lemma prose_loop_valid (att : Nat → GenAttempt) (fb : String)
    (fuel rc : Nat) (ps : List PromptKind) (cds : Nat) (s : String)
    (hrc : rc ≤ 2) (h : att rc = GenAttempt.ok s) (hlen : ¬ s.length < 500) :
    prose_loop_go att fb (fuel + 1) rc ps cds =
      ⟨s, ps ++ [if rc = 0 then PromptKind.full else PromptKind.reduced],
        cds, false⟩ := by
  simp [prose_loop_go, hrc, h, hlen]

lemma prose_loop_short_keep (att : Nat → GenAttempt) (fb : String)
    (fuel rc : Nat) (ps : List PromptKind) (cds : Nat) (s : String)
    (hrc : rc ≤ 2) (hnext : rc + 1 ≤ 2) (h : att rc = GenAttempt.ok s)
    (hlen : s.length < 500) (hs : ¬ s = "") :
    prose_loop_go att fb (fuel + 1) rc ps cds =
      ⟨s, ps ++ [if rc = 0 then PromptKind.full else PromptKind.reduced],
        cds + 1, false⟩ := by
  simp [prose_loop_go, hrc, hnext, h, hlen, hs]

lemma prose_loop_short_last (att : Nat → GenAttempt) (fb : String)
    (fuel rc : Nat) (ps : List PromptKind) (cds : Nat) (s : String)
    (hrc : rc ≤ 2) (hnext : ¬ rc + 1 ≤ 2) (h : att rc = GenAttempt.ok s)
    (hlen : s.length < 500) :
    prose_loop_go att fb (fuel + 1) rc ps cds =
      ⟨fb, ps ++ [if rc = 0 then PromptKind.full else PromptKind.reduced],
        cds, true⟩ := by
  simp [prose_loop_go, hrc, hnext, h, hlen]

lemma prose_loop_falsy_retry (att : Nat → GenAttempt) (fb : String)
    (fuel rc : Nat) (ps : List PromptKind) (cds : Nat)
    (hrc : rc ≤ 2) (hnext : rc + 1 ≤ 2)
    (h : att rc = GenAttempt.err ∨ att rc = GenAttempt.ok "") :
    prose_loop_go att fb (fuel + 1) rc ps cds =
      prose_loop_go att fb fuel (rc + 1)
        (ps ++ [if rc = 0 then PromptKind.full else PromptKind.reduced])
        (cds + 1) := by
  have hempty : ("" : String).length < 500 := by decide
  rcases h with h | h <;> simp [prose_loop_go, hrc, hnext, h, hempty]

lemma prose_loop_falsy_last (att : Nat → GenAttempt) (fb : String)
    (fuel rc : Nat) (ps : List PromptKind) (cds : Nat)
    (hrc : rc ≤ 2) (hnext : ¬ rc + 1 ≤ 2)
    (h : att rc = GenAttempt.err ∨ att rc = GenAttempt.ok "") :
    prose_loop_go att fb (fuel + 1) rc ps cds =
      ⟨fb, ps ++ [if rc = 0 then PromptKind.full else PromptKind.reduced],
        cds, true⟩ := by
  have hempty : ("" : String).length < 500 := by decide
  rcases h with h | h <;> simp [prose_loop_go, hrc, hnext, h, hempty]

lemma prose_loop_prompts_le (att : Nat → GenAttempt) (fb : String) :
    ∀ (fuel rc : Nat) (ps : List PromptKind) (cds : Nat),
      (prose_loop_go att fb fuel rc ps cds).prompts.length ≤
        ps.length + fuel := by
  intro fuel
  induction fuel with
  | zero => intro rc ps cds; simp [prose_loop_go]
  | succ n ih =>
      intro rc ps cds
      by_cases hrc : rc ≤ 2
      · cases hatt : att rc with
        | ok s =>
            by_cases hlen : s.length < 500
            · by_cases hnext : rc + 1 ≤ 2
              · by_cases hs : s = ""
                · subst hs
                  rw [prose_loop_falsy_retry att fb n rc ps cds hrc hnext
                    (Or.inr hatt)]
                  calc (prose_loop_go att fb n (rc + 1)
                          (ps ++ [if rc = 0 then PromptKind.full else
                            PromptKind.reduced]) (cds + 1)).prompts.length
                      ≤ (ps ++ [if rc = 0 then PromptKind.full else
                          PromptKind.reduced]).length + n := ih (rc + 1) _ (cds + 1)
                    _ ≤ ps.length + (n + 1) := by
                        simp only [List.length_append, List.length_singleton]
                        omega
                · rw [prose_loop_short_keep att fb n rc ps cds s hrc hnext
                    hatt hlen hs]
                  simp only [List.length_append, List.length_singleton]
                  omega
              · rw [prose_loop_short_last att fb n rc ps cds s hrc hnext
                  hatt hlen]
                simp only [List.length_append, List.length_singleton]
                omega
            · rw [prose_loop_valid att fb n rc ps cds s hrc hatt hlen]
              simp only [List.length_append, List.length_singleton]
              omega
        | err =>
            by_cases hnext : rc + 1 ≤ 2
            · rw [prose_loop_falsy_retry att fb n rc ps cds hrc hnext
                (Or.inl hatt)]
              calc (prose_loop_go att fb n (rc + 1)
                      (ps ++ [if rc = 0 then PromptKind.full else
                        PromptKind.reduced]) (cds + 1)).prompts.length
                  ≤ (ps ++ [if rc = 0 then PromptKind.full else
                      PromptKind.reduced]).length + n := ih (rc + 1) _ (cds + 1)
                _ ≤ ps.length + (n + 1) := by
                    simp only [List.length_append, List.length_singleton]
                    omega
            · rw [prose_loop_falsy_last att fb n rc ps cds hrc hnext
                (Or.inl hatt)]
              simp only [List.length_append, List.length_singleton]
              omega
      · rw [prose_loop_guard_exit att fb n rc ps cds hrc]
        show ps.length ≤ ps.length + (n + 1)
        omega

/-- C4 (amended): a prose attempt that **raises or returns empty
content** is retried after a 10-second cooldown with the
reduced-context prompt, up to **two** retries — not one — and the
templated fallback becomes the content only when all three such
attempts fail.  A **non-empty reply shorter than 500 characters**,
however, is kept: it was assigned to `chapter_content` before the
length check raised, so the loop's `not chapter_content` guard exits
with the short text as the final chapter content — no retry is issued
and no fallback substituted (one cooldown is still slept).  The loop
always terminates with some content after at most 3 attempts, so
`generate_chapter` returns a chapter rather than raising. -/
theorem chapter_prose_retry_bounds :
    (∀ att fb, (generate_chapter_content att fb).prompts.length ≤ 3) ∧
    (∀ att fb,
      (∀ i, i < 3 → att i = GenAttempt.err ∨ att i = GenAttempt.ok "") →
      generate_chapter_content att fb =
        ⟨fb, [PromptKind.full, PromptKind.reduced, PromptKind.reduced],
          2, true⟩) ∧
    (∀ att fb s, att 0 = GenAttempt.ok s → 500 ≤ s.length →
      generate_chapter_content att fb = ⟨s, [PromptKind.full], 0, false⟩) ∧
    (∀ att fb s, att 0 = GenAttempt.ok s → s ≠ "" → s.length < 500 →
      generate_chapter_content att fb = ⟨s, [PromptKind.full], 1, false⟩) := by
  refine ⟨fun att fb => prose_loop_prompts_le att fb 3 0 [] 0, ?_, ?_, ?_⟩
  · intro att fb h
    calc generate_chapter_content att fb
        = prose_loop_go att fb (2 + 1) 0 [] 0 := rfl
      _ = prose_loop_go att fb (1 + 1) 1 ([] ++ [PromptKind.full]) 1 :=
          prose_loop_falsy_retry att fb 2 0 [] 0 (by omega) (by omega)
            (h 0 (by omega))
      _ = prose_loop_go att fb (0 + 1) 2
            (([] ++ [PromptKind.full]) ++ [PromptKind.reduced]) 2 :=
          prose_loop_falsy_retry att fb 1 1 ([] ++ [PromptKind.full]) 1
            (by omega) (by omega) (h 1 (by omega))
      _ = ⟨fb, (([] ++ [PromptKind.full]) ++ [PromptKind.reduced]) ++
            [PromptKind.reduced], 2, true⟩ :=
          prose_loop_falsy_last att fb 0 2 _ 2 (by omega) (by omega)
            (h 2 (by omega))
      _ = ⟨fb, [PromptKind.full, PromptKind.reduced, PromptKind.reduced],
            2, true⟩ := by simp
  · intro att fb s h0 hlen
    calc generate_chapter_content att fb
        = prose_loop_go att fb (2 + 1) 0 [] 0 := rfl
      _ = ⟨s, [] ++ [PromptKind.full], 0, false⟩ :=
          prose_loop_valid att fb 2 0 [] 0 s (by omega) h0 (by omega)
      _ = ⟨s, [PromptKind.full], 0, false⟩ := by simp
  · intro att fb s h0 hne hlen
    calc generate_chapter_content att fb
        = prose_loop_go att fb (2 + 1) 0 [] 0 := rfl
      _ = ⟨s, [] ++ [PromptKind.full], 0 + 1, false⟩ :=
          prose_loop_short_keep att fb 2 0 [] 0 s (by omega) (by omega)
            h0 hlen hne
      _ = ⟨s, [PromptKind.full], 1, false⟩ := by simp

theorem chapter_prose_retry_bounds_witness :
    generate_chapter_content (fun _ => GenAttempt.err) "yedek" =
      ⟨"yedek", [PromptKind.full, PromptKind.reduced, PromptKind.reduced],
        2, true⟩ ∧
    generate_chapter_content (fun _ => GenAttempt.ok "kısa") "yedek" =
      ⟨"kısa", [PromptKind.full], 1, false⟩ :=
  ⟨chapter_prose_retry_bounds.2.1 (fun _ => GenAttempt.err) "yedek"
      (fun _ _ => Or.inl rfl),
    chapter_prose_retry_bounds.2.2.2 (fun _ => GenAttempt.ok "kısa") "yedek"
      "kısa" rfl (by decide) (by decide)⟩

/-- C4 counterexample: with every generation attempt failing, the loop
makes three attempts — the initial one plus **two** reduced-prompt
retries after **two** 10-second cooldowns — before the templated
fallback becomes the content; the claim's "exactly one retry" is
false. -/
theorem chapter_prose_two_retries :
    (generate_chapter_content (fun _ => GenAttempt.err)
        (fallback_content sample_outline_entry ["Ana Kahraman"] ["Ana Şehir"])).prompts =
      [PromptKind.full, PromptKind.reduced, PromptKind.reduced] ∧
    (generate_chapter_content (fun _ => GenAttempt.err)
        (fallback_content sample_outline_entry ["Ana Kahraman"] ["Ana Şehir"])).cooldowns = 2 ∧
    (generate_chapter_content (fun _ => GenAttempt.err)
        (fallback_content sample_outline_entry ["Ana Kahraman"] ["Ana Şehir"])).content =
      fallback_content sample_outline_entry ["Ana Kahraman"] ["Ana Şehir"] :=
  ⟨rfl, rfl, rfl⟩

lemma mem_insert_by_chapter_desc {e x : Event} {l : List Event} :
    x ∈ insert_by_chapter_desc e l ↔ x = e ∨ x ∈ l := by
  induction l with
  | nil => simp [insert_by_chapter_desc]
  | cons y ys ih =>
      by_cases hc : e.chapter ≤ y.chapter
      · rw [insert_by_chapter_desc, if_pos hc]
        simp only [List.mem_cons, ih]
        tauto
      · rw [insert_by_chapter_desc, if_neg hc]
        simp only [List.mem_cons]

lemma pairwise_insert_by_chapter_desc {e : Event} {l : List Event}
    (h : l.Pairwise (fun a b => b.chapter ≤ a.chapter)) :
    (insert_by_chapter_desc e l).Pairwise (fun a b => b.chapter ≤ a.chapter) := by
  induction l with
  | nil => simp [insert_by_chapter_desc]
  | cons x xs ih =>
      obtain ⟨hx, hxs⟩ := List.pairwise_cons.mp h
      by_cases hc : e.chapter ≤ x.chapter
      · rw [insert_by_chapter_desc, if_pos hc]
        refine List.pairwise_cons.mpr ⟨fun y hy => ?_, ih hxs⟩
        rcases mem_insert_by_chapter_desc.mp hy with rfl | hmem
        · exact hc
        · exact hx y hmem
      · rw [insert_by_chapter_desc, if_neg hc]
        refine List.pairwise_cons.mpr ⟨fun y hy => ?_, h⟩
        rcases List.mem_cons.mp hy with rfl | hmem
        · exact le_of_lt (lt_of_not_le hc)
        · exact le_trans (hx y hmem) (le_of_lt (lt_of_not_le hc))

lemma mem_sort_by_chapter_desc_aux (l : List Event) :
    ∀ (acc : List Event) (x : Event),
      x ∈ l.foldl (fun a e => insert_by_chapter_desc e a) acc ↔
        x ∈ acc ∨ x ∈ l := by
  induction l with
  | nil => intro acc x; simp
  | cons e es ih =>
      intro acc x
      simp only [List.foldl_cons, ih, mem_insert_by_chapter_desc,
        List.mem_cons]
      tauto

lemma mem_sort_by_chapter_desc {x : Event} {l : List Event} :
    x ∈ sort_by_chapter_desc l ↔ x ∈ l := by
  rw [sort_by_chapter_desc, mem_sort_by_chapter_desc_aux]
  simp

lemma pairwise_sort_by_chapter_desc_aux (l : List Event) :
    ∀ acc : List Event,
      acc.Pairwise (fun a b => b.chapter ≤ a.chapter) →
      (l.foldl (fun a e => insert_by_chapter_desc e a) acc).Pairwise
        (fun a b => b.chapter ≤ a.chapter) := by
  induction l with
  | nil => intro acc h; simpa using h
  | cons e es ih =>
      intro acc h
      exact ih _ (pairwise_insert_by_chapter_desc h)

lemma pairwise_sort_by_chapter_desc (l : List Event) :
    (sort_by_chapter_desc l).Pairwise (fun a b => b.chapter ≤ a.chapter) :=
  pairwise_sort_by_chapter_desc_aux l [] (by simp)

lemma events_for_character_spec (events : List Event) (name : String) :
    (events_for_character events name).length ≤ 3 ∧
    (events_for_character events name).Pairwise
      (fun a b => b.chapter ≤ a.chapter) ∧
    ∀ e ∈ events_for_character events name,
      e ∈ events ∧ name ∈ e.characters_involved := by
  refine ⟨List.length_take_le _ _, ?_, ?_⟩
  · exact List.Pairwise.sublist (List.take_sublist _ _)
      (pairwise_sort_by_chapter_desc _)
  · intro e he
    have hmem := mem_sort_by_chapter_desc.mp (List.mem_of_mem_take he)
    obtain ⟨h1, h2⟩ := List.mem_filter.mp hmem
    exact ⟨h1, of_decide_eq_true h2⟩

/-- C9 (amended): the related-event recall includes at most 5 entries,
each an event whose involved characters intersect the chapter's
character list; per chapter character, at most the 3 most recent
matching events are recalled, most-recent-chapter-first — but the
concatenation is grouped by character in character order, not globally
most-recent-first (see the counterexample). -/
theorem related_events_bounds (events : List Event)
    (chapterChars : List String) :
    (related_events events chapterChars).length ≤ 5 ∧
    (∀ e ∈ related_events events chapterChars,
      e ∈ events ∧ ∃ c ∈ chapterChars, c ∈ e.characters_involved) ∧
    (∀ name, (events_for_character events name).length ≤ 3 ∧
      (events_for_character events name).Pairwise
        (fun a b => b.chapter ≤ a.chapter)) := by
  refine ⟨List.length_take_le _ _, ?_, ?_⟩
  · intro e he
    have hj := List.mem_of_mem_take he
    obtain ⟨l, hl, hel⟩ := List.mem_flatten.mp hj
    obtain ⟨name, hname, rfl⟩ := List.mem_map.mp hl
    obtain ⟨hev, hinv⟩ := (events_for_character_spec events name).2.2 e hel
    exact ⟨hev, name, hname, hinv⟩
  · intro name
    exact ⟨(events_for_character_spec events name).1,
      (events_for_character_spec events name).2.1⟩

theorem related_events_bounds_witness :
    (related_events [ev_a5, ev_a3, ev_b9] ["A", "B"]).length ≤ 5 :=
  (related_events_bounds [ev_a5, ev_a3, ev_b9] ["A", "B"]).1

/-- C9 counterexample: with two chapter characters, one involved in
events of chapters 5 and 3 and the other in an event of chapter 9, the
recalled list's chapters are `[5, 3, 9]` — not ordered most-recent-
chapter-first. -/
theorem related_events_not_globally_sorted :
    (related_events [ev_a5, ev_a3, ev_b9] ["A", "B"]).map
        (fun e => e.chapter) = [5, 3, 9] ∧
    ¬ ((related_events [ev_a5, ev_a3, ev_b9] ["A", "B"]).map
        (fun e => e.chapter)).Pairwise (fun a b => b ≤ a) := by
  refine ⟨rfl, fun h => ?_⟩
  have h1 : ([5, 3, 9] : List Int).Pairwise (fun a b => b ≤ a) := by
    have : (related_events [ev_a5, ev_a3, ev_b9] ["A", "B"]).map
        (fun e => e.chapter) = [5, 3, 9] := rfl
    rwa [this] at h
  have h2 := (List.pairwise_cons.mp (List.pairwise_cons.mp h1).2).1 9 (by simp)
  omega

lemma py_get_valid {α : Type} (l : List α) (i : Int) (hne : l ≠ [])
    (hi : i = -1 ∨ (0 ≤ i ∧ i < (l.length : Int))) :
    ∃ b, py_get l i = some b ∧ b ∈ l := by
  have hlen : 0 < l.length := List.length_pos.mpr hne
  rcases hi with rfl | ⟨h0, hlt⟩
  · have h1 : ¬ (0 : Int) ≤ -1 := by decide
    have h2 : (0 : Int) ≤ (l.length : Int) + -1 := by omega
    have h3 : ((l.length : Int) + -1).toNat < l.length := by omega
    refine ⟨l.get ⟨_, h3⟩, ?_, List.get_mem l _ h3⟩
    rw [py_get, if_neg h1, if_pos h2]
    exact List.get?_eq_get h3
  · have h3 : i.toNat < l.length := by omega
    refine ⟨l.get ⟨_, h3⟩, ?_, List.get_mem l _ h3⟩
    rw [py_get, if_pos h0]
    exact List.get?_eq_get h3

lemma list_comp_total {α β : Type} {f : α → Option β} {P : β → Prop}
    (l : List α) (h : ∀ a ∈ l, ∃ b, f a = some b ∧ P b) :
    ∃ bs, list_comp f l = some bs ∧ ∀ b ∈ bs, P b := by
  induction l with
  | nil => exact ⟨[], rfl, by simp⟩
  | cons a as ih =>
      obtain ⟨b, hb, hPb⟩ := h a (by simp)
      obtain ⟨bs, hbs, hPbs⟩ := ih (fun x hx => h x (List.mem_cons_of_mem a hx))
      refine ⟨b :: bs, ?_, ?_⟩
      · rw [list_comp, hb, hbs]
      · intro y hy
        rcases List.mem_cons.mp hy with rfl | hmem
        · exact hPb
        · exact hPbs y hmem

/-- C10: for a non-empty character index, any faiss result row (valid
positions padded with `-1`) passes the `i < len(self.characters)`
filter in full; the comprehension never raises and returns only stored
characters — but the `-1` padding resolves by Python negative indexing
to the last-inserted character, so with `k` above the store size the
result repeats that character (both stored characters plus a repeat of
the last one, in the concrete instance). -/
theorem search_similar_characters_safe (db : VectorDatabase)
    (indices : List Int) (hne : db.characters ≠ [])
    (hidx : faiss_indices_ok db.characters.length indices) :
    (∃ result, search_similar_characters db indices = some result ∧
      ∀ c ∈ result, c ∈ db.characters) ∧
    search_similar_characters sample_db [0, 1, -1] =
      some [char_a, char_b, char_b] := by
  constructor
  · have hlen : ¬ db.characters.length = 0 := by
      simpa [List.length_eq_zero] using hne
    rw [search_similar_characters, if_neg hlen]
    refine list_comp_total _ (fun i hi => ?_)
    have hmem := (List.mem_filter.mp hi).1
    exact py_get_valid db.characters i hne (hidx i hmem)
  · rfl

theorem search_similar_characters_safe_witness :
    ∃ result, search_similar_characters sample_db [0, 1, -1] = some result ∧
      ∀ c ∈ result, c ∈ sample_db.characters :=
  (search_similar_characters_safe sample_db [0, 1, -1] (by decide)
    (by unfold faiss_indices_ok; decide)).1

lemma findFrom_append_some {c : Char} {p l : List Char} {k : Nat}
    (hp : c ∉ p) (hl : findFrom c l = some k) :
    findFrom c (p ++ l) = some (p.length + k) := by
  induction p with
  | nil => simpa using hl
  | cons x xs ih =>
      have hx : ¬ x = c := fun h => hp (h ▸ List.mem_cons_self x xs)
      have hxs : c ∉ xs := fun h => hp (List.mem_cons_of_mem x h)
      rw [List.cons_append]
      simp only [findFrom, if_neg hx, ih hxs, Option.map_some']
      simp only [List.length_cons, Option.some.injEq]
      omega

lemma cleanJson_extract (p mid s : List Char) (h1 : '[' ∉ p) (h2 : ']' ∉ s) :
    cleanJson (p ++ ('[' :: (mid ++ [']'])) ++ s) = '[' :: (mid ++ [']']) := by
  set a : List Char := '[' :: (mid ++ [']']) with ha
  have hfind : findFrom '[' (p ++ a ++ s) = some p.length := by
    rw [List.append_assoc]
    have h0 : findFrom '[' (a ++ s) = some 0 := by
      rw [ha]
      simp [findFrom]
    simpa using findFrom_append_some h1 h0
  have hrevshape : (p ++ a ++ s).reverse =
      s.reverse ++ ((']' :: (mid.reverse ++ ['['])) ++ p.reverse) := by
    rw [ha]
    simp [List.reverse_append]
  have hrfind : findFrom ']' ((p ++ a ++ s).reverse) = some s.length := by
    rw [hrevshape]
    have hs' : ']' ∉ s.reverse := by simpa [List.mem_reverse] using h2
    have h0 : findFrom ']' ((']' :: (mid.reverse ++ ['['])) ++ p.reverse) =
        some 0 := by
      simp [findFrom]
    simpa [List.length_reverse] using findFrom_append_some hs' h0
  have hlen : (p ++ a ++ s).length = p.length + (mid.length + 2) + s.length := by
    rw [ha]
    simp only [List.length_append, List.length_cons, List.length_nil]
  have hpf : py_find '[' (p ++ a ++ s) = (p.length : Int) := by
    rw [py_find, hfind]
  have hpr : py_rfind ']' (p ++ a ++ s) =
      ((p.length + mid.length + 1 : Nat) : Int) := by
    rw [py_rfind, hrfind, hlen]
    push_cast
    ring
  have e1 : ((p.length : Int)).toNat = p.length := by omega
  have e2 : (((p.length + mid.length + 1 : Nat) : Int)).toNat =
      p.length + mid.length + 1 := by omega
  have e4 : a.length = mid.length + 2 := by
    rw [ha]
    simp only [List.length_cons, List.length_append, List.length_nil]
  have hcond : ((p.length : Int) ≠ -1 ∧
      ((p.length + mid.length + 1 : Nat) : Int) ≠ -1 ∧
      (p.length : Int) < ((p.length + mid.length + 1 : Nat) : Int)) := by
    refine ⟨by omega, by omega, by omega⟩
  rw [cleanJson]
  simp only [hpf, hpr]
  rw [if_pos hcond, e1, e2]
  have e3 : p.length + mid.length + 1 + 1 - p.length = mid.length + 2 := by omega
  rw [e3, List.append_assoc, List.drop_left, ← e4, List.take_left]

/-- C2 (amended): extraction takes the substring from the first `[` to
the last `]` and yields the same parse as the bracketed array text
alone, and it is applied to the character-list and outline replies —
but **not** to the location-list replies, which are parsed raw (see the
counterexample). -/
theorem bracket_extraction_parse (p mid s : List Char)
    (h1 : '[' ∉ p) (h2 : ']' ∉ s) :
    characters_parse_attempt (p ++ ('[' :: (mid ++ [']'])) ++ s) =
      json_loads ('[' :: (mid ++ [']'])) ∧
    outline_parse_attempt (p ++ ('[' :: (mid ++ [']'])) ++ s) =
      json_loads ('[' :: (mid ++ [']'])) ∧
    (∀ raw, locations_parse_attempt raw = json_loads raw) := by
  refine ⟨?_, ?_, fun raw => rfl⟩
  · rw [characters_parse_attempt, cleanJson_extract p mid s h1 h2]
  · rw [outline_parse_attempt, cleanJson_extract p mid s h1 h2]

theorem bracket_extraction_parse_witness :
    characters_parse_attempt
        ("Elbette: ".toList ++ ('[' :: ("1, 2".toList ++ [']'])) ++
          " bitti".toList) =
      json_loads ('[' :: ("1, 2".toList ++ [']'])) :=
  (bracket_extraction_parse "Elbette: ".toList "1, 2".toList " bitti".toList
    (by decide) (by decide)).1

/-- C2 counterexample: a location-list reply with prose around a valid
JSON array fails to parse — the location loop feeds the raw reply to
`json.loads` without the first-`[`-to-last-`]` extraction, which would
have succeeded. -/
theorem locations_no_extraction :
    locations_parse_attempt "Tabii, konumlar: [1, 2]".toList = none ∧
    json_loads (cleanJson "Tabii, konumlar: [1, 2]".toList) =
      some (Json.arr [Json.num 1, Json.num 2]) :=
  ⟨rfl, rfl⟩

end StoryGen
